import Mathlib

/-!
Verification development for the copilot-dashboard repository.

Shallow embedding of the core data-shaping logic of `src/main.py` and
`src/dashboard.py`:
  * the nested per-record usage structures and the two extraction functions
    `extract_language_metrics` / `extract_chat_metrics` (dashboard.py),
  * the period-window filtering of `render_language_analysis` (dashboard.py),
  * `calculate_acceptance_rate` and the engagement-rate computation of
    `render_overview` (dashboard.py),
  * `load_json_files` (with the filename-based organization fallback) and
    `process_data` (main.py).

Python dict-key access on optional nested structures is modelled with explicit
absent / null / value states; Python exceptions (e.g. TypeError when iterating
None, ZeroDivisionError) are modelled with `Except`.
-/

/-- State of a dict key whose value, when present, is expected to be a list.
The source guards such keys only with `'k' in d` and then iterates `d['k']`:
an absent key is skipped, a present-but-null value raises TypeError when
iterated, and an empty list iterates zero times. -/
inductive ListField (α : Type) where
  | absent : ListField α
  | null : ListField α
  | val : List α → ListField α
deriving DecidableEq, Repr

/-- State of a top-level feature key of a record. The source guards these with
`'k' in row and row['k']` (key presence AND truthiness), so absent, null and
empty (falsy) values are all skipped; only a truthy value is entered. -/
inductive TopField (α : Type) where
  | absent : TopField α
  | null : TopField α
  | emptyFalsy : TopField α
  | val : α → TopField α
deriving DecidableEq, Repr

/-- One entry of a `languages` list inside a code-completions model.
Every metric key is optional; the source reads them with `.get(k, default)`. -/
structure CompLang where
  name : Option String
  total_engaged_users : Option Nat
  total_code_acceptances : Option Nat
  total_code_suggestions : Option Nat
  total_code_lines_accepted : Option Nat
  total_code_lines_suggested : Option Nat
deriving DecidableEq, Repr

/-- One entry of a `models` list inside a code-completions editor. -/
structure CompModel where
  languages : ListField CompLang
deriving DecidableEq, Repr

/-- One entry of the `editors` list inside `copilot_ide_code_completions`. -/
structure CompEditor where
  name : Option String
  models : ListField CompModel
deriving DecidableEq, Repr

/-- The `copilot_ide_code_completions` structure. -/
structure Completions where
  editors : ListField CompEditor
deriving DecidableEq, Repr

/-- One entry of a `models` list inside a `copilot_ide_chat` editor. -/
structure ChatModel where
  total_engaged_users : Option Nat
  total_chats : Option Nat
  total_chat_copy_events : Option Nat
  total_chat_insertion_events : Option Nat
deriving DecidableEq, Repr

/-- One entry of the `editors` list inside `copilot_ide_chat`. -/
structure ChatEditor where
  name : Option String
  models : ListField ChatModel
deriving DecidableEq, Repr

/-- The `copilot_ide_chat` structure. -/
structure IdeChat where
  editors : ListField ChatEditor
deriving DecidableEq, Repr

/-- One entry of the `models` list inside `copilot_dotcom_chat`. -/
structure DotcomModel where
  total_chats : Option Nat
deriving DecidableEq, Repr

/-- The `copilot_dotcom_chat` structure. -/
structure DotcomChat where
  total_engaged_users : Option Nat
  models : ListField DotcomModel
deriving DecidableEq, Repr

/-- One row of the wide table as read by the extraction functions: a date
(calendar day encoded as an integer), an organization, and the optional nested
feature structures. -/
structure UsageRow where
  date : Int
  organization : String
  copilot_ide_code_completions : TopField Completions
  copilot_ide_chat : TopField IdeChat
  copilot_dotcom_chat : TopField DotcomChat
deriving DecidableEq, Repr

/-- One row of the long-format language-metric table produced by
`extract_language_metrics`. -/
structure LangRow where
  date : Int
  organization : String
  editor : String
  language : String
  total_engaged_users : Nat
  total_code_acceptances : Nat
  total_code_suggestions : Nat
  total_code_lines_accepted : Nat
  total_code_lines_suggested : Nat
  feature_type : String
deriving DecidableEq, Repr

/-- One row of the long-format chat-metric table produced by
`extract_chat_metrics`. -/
structure ChatRow where
  date : Int
  organization : String
  editor : String
  feature_type : String
  total_engaged_users : Nat
  total_chats : Nat
  total_chat_copy_events : Nat
  total_chat_insertion_events : Nat
deriving DecidableEq, Repr

/-- Left-to-right iteration that appends the rows produced for each element
and aborts at the first error, like a Python `for` loop whose body appends to
an accumulator and may raise. -/
def exceptFlatMap (f : α → Except String (List β)) : List α → Except String (List β)
  | [] => .ok []
  | a :: as =>
    match f a with
    | .error e => .error e
    | .ok bs =>
      match exceptFlatMap f as with
      | .error e => .error e
      | .ok cs => .ok (bs ++ cs)

/-- The row built for one language entry (dashboard.py lines 78-89). -/
def langRowOfLang (date : Int) (org : String) (editor_name : String) (lang : CompLang) : LangRow :=
  { date := date
    organization := org
    editor := editor_name
    language := lang.name.getD "unknown"
    total_engaged_users := lang.total_engaged_users.getD 0
    total_code_acceptances := lang.total_code_acceptances.getD 0
    total_code_suggestions := lang.total_code_suggestions.getD 0
    total_code_lines_accepted := lang.total_code_lines_accepted.getD 0
    total_code_lines_suggested := lang.total_code_lines_suggested.getD 0
    feature_type := "code_completions" }

/-- Rows contributed by one model: `if 'languages' in model: for lang in
model['languages']`. An absent key contributes nothing; a null value raises. -/
def langRowsOfModel (date : Int) (org : String) (editor_name : String) (m : CompModel) :
    Except String (List LangRow) :=
  match m.languages with
  | .absent => .ok []
  | .null => .error "TypeError"
  | .val ls => .ok (ls.map (langRowOfLang date org editor_name))

/-- Rows contributed by one editor: `editor.get('name', 'unknown')`, then
`if 'models' in editor: for model in editor['models']`. -/
def langRowsOfEditor (date : Int) (org : String) (e : CompEditor) :
    Except String (List LangRow) :=
  match e.models with
  | .absent => .ok []
  | .null => .error "TypeError"
  | .val ms => exceptFlatMap (langRowsOfModel date org (e.name.getD "unknown")) ms

/-- Language rows contributed by one record: the guard
`'copilot_ide_code_completions' in row and row['copilot_ide_code_completions']`
followed by `if 'editors' in completions: for editor in completions['editors']`. -/
def langRowsOfRow (r : UsageRow) : Except String (List LangRow) :=
  match r.copilot_ide_code_completions with
  | .absent => .ok []
  | .null => .ok []
  | .emptyFalsy => .ok []
  | .val c =>
    match c.editors with
    | .absent => .ok []
    | .null => .error "TypeError"
    | .val es => exceptFlatMap (langRowsOfEditor r.date r.organization) es

/-- `extract_language_metrics` (dashboard.py lines 57-91): iterate the table's
rows in order and collect the language rows of each. -/
def extract_language_metrics (df : List UsageRow) : Except String (List LangRow) :=
  exceptFlatMap langRowsOfRow df

/-- The row built for one IDE-chat model (dashboard.py lines 111-120). -/
def chatRowOfModel (date : Int) (org : String) (editor_name : String) (m : ChatModel) : ChatRow :=
  { date := date
    organization := org
    editor := editor_name
    feature_type := "ide_chat"
    total_engaged_users := m.total_engaged_users.getD 0
    total_chats := m.total_chats.getD 0
    total_chat_copy_events := m.total_chat_copy_events.getD 0
    total_chat_insertion_events := m.total_chat_insertion_events.getD 0 }

/-- IDE-chat rows contributed by one editor: `if 'models' in editor:
for model in editor['models']`. -/
def chatRowsOfEditor (date : Int) (org : String) (e : ChatEditor) :
    Except String (List ChatRow) :=
  match e.models with
  | .absent => .ok []
  | .null => .error "TypeError"
  | .val ms => .ok (ms.map (chatRowOfModel date org (e.name.getD "unknown")))

/-- IDE-chat rows contributed by one record (dashboard.py lines 102-120). -/
def ideChatRowsOfRow (r : UsageRow) : Except String (List ChatRow) :=
  match r.copilot_ide_chat with
  | .absent => .ok []
  | .null => .ok []
  | .emptyFalsy => .ok []
  | .val c =>
    match c.editors with
    | .absent => .ok []
    | .null => .error "TypeError"
    | .val es => exceptFlatMap (chatRowsOfEditor r.date r.organization) es

/-- Dotcom-chat rows contributed by one record (dashboard.py lines 123-139):
whenever `copilot_dotcom_chat` is present and truthy, exactly one row is
appended; `total_chats` is taken from the first model when
`'models' in dotcom_chat and dotcom_chat['models'] and len(...) > 0`, else 0. -/
def dotcomChatRowsOfRow (r : UsageRow) : List ChatRow :=
  match r.copilot_dotcom_chat with
  | .absent => []
  | .null => []
  | .emptyFalsy => []
  | .val d =>
    let total_chats : Nat :=
      match d.models with
      | .val (m :: _) => m.total_chats.getD 0
      | _ => 0
    [{ date := r.date
       organization := r.organization
       editor := "github.com"
       feature_type := "dotcom_chat"
       total_engaged_users := d.total_engaged_users.getD 0
       total_chats := total_chats
       total_chat_copy_events := 0
       total_chat_insertion_events := 0 }]

/-- Chat rows contributed by one record: the IDE-chat block runs first and its
exception (if any) propagates before the dotcom block is reached. -/
def chatRowsOfRow (r : UsageRow) : Except String (List ChatRow) :=
  match ideChatRowsOfRow r with
  | .error e => .error e
  | .ok l => .ok (l ++ dotcomChatRowsOfRow r)

/-- `extract_chat_metrics` (dashboard.py lines 93-141). -/
def extract_chat_metrics (df : List UsageRow) : Except String (List ChatRow) :=
  exceptFlatMap chatRowsOfRow df

def compModelWf (m : CompModel) : Bool :=
  match m.languages with
  | .null => false
  | _ => true

def compEditorWf (e : CompEditor) : Bool :=
  match e.models with
  | .absent => true
  | .null => false
  | .val ms => ms.all compModelWf

def completionsWf (c : Completions) : Bool :=
  match c.editors with
  | .absent => true
  | .null => false
  | .val es => es.all compEditorWf

/-- No present-but-null `editors`, `models` or `languages` key anywhere under
the record's `copilot_ide_code_completions` structure. -/
def usageRowLangWf (r : UsageRow) : Bool :=
  match r.copilot_ide_code_completions with
  | .val c => completionsWf c
  | _ => true

def chatEditorWf (e : ChatEditor) : Bool :=
  match e.models with
  | .null => false
  | _ => true

def ideChatWf (c : IdeChat) : Bool :=
  match c.editors with
  | .absent => true
  | .null => false
  | .val es => es.all chatEditorWf

/-- No present-but-null `editors` or `models` key anywhere under the record's
`copilot_ide_chat` structure (the `copilot_dotcom_chat` reads are fully
guarded in the source, so no condition is needed there). -/
def usageRowChatWf (r : UsageRow) : Bool :=
  match r.copilot_ide_chat with
  | .val c => ideChatWf c
  | _ => true

/-- `calculate_acceptance_rate` (dashboard.py lines 158-166): 0 on an empty
table, otherwise `Σacceptances / Σsuggestions * 100` guarded to 0 when the
summed suggestions are not positive. Exact rational arithmetic stands in for
Python float arithmetic. -/
def total_suggestions (lang_df : List LangRow) : Nat :=
  (lang_df.map (fun r => r.total_code_suggestions)).sum

def total_acceptances (lang_df : List LangRow) : Nat :=
  (lang_df.map (fun r => r.total_code_acceptances)).sum

def calculate_acceptance_rate (lang_df : List LangRow) : ℚ :=
  if lang_df.isEmpty then 0
  else if 0 < total_suggestions lang_df then
    (total_acceptances lang_df : ℚ) / (total_suggestions lang_df : ℚ) * 100
  else 0

/-- The fields of the latest wide-table row that `render_overview` reads with
`.get` (dashboard.py line 202); each key may be absent. -/
structure OverviewRecord where
  total_active_users : Option Nat
  total_engaged_users : Option Nat
deriving DecidableEq, Repr

/-- The engagement-rate computation of `render_overview` (dashboard.py line
202): `(latest_data.get('total_engaged_users', 0) /
latest_data.get('total_active_users', 1)) * 100`. The default 1 applies only
when the key is absent; a present value of 0 is divided by, which raises. -/
def engagement_rate (latest_data : OverviewRecord) : Except String ℚ :=
  let num : Nat := latest_data.total_engaged_users.getD 0
  let den : Nat := latest_data.total_active_users.getD 1
  if den = 0 then .error "ZeroDivisionError"
  else .ok ((num : ℚ) / (den : ℚ) * 100)

/-- The period selector of the dashboard's period filters
(`"Last 7 days"`, `"Last 14 days"`, `"Last 30 days"`, `"All time"`). -/
inductive PeriodOption where
  | last7 : PeriodOption
  | last14 : PeriodOption
  | last30 : PeriodOption
  | allTime : PeriodOption
deriving DecidableEq, Repr

/-- The `days` value assigned in each non-all-time branch of
`render_language_analysis` (dashboard.py lines 285-293). -/
def period_days : PeriodOption → Int
  | .last7 => 7
  | .last14 => 14
  | .last30 => 30
  | .allTime => 0

/-- `lang_df['date'].max()`: the maximum date present in the table. -/
def lang_max_date (rows : List LangRow) : Int :=
  match rows with
  | [] => 0
  | r :: rs => (rs.map (fun x => x.date)).foldl max r.date

/-- The period filtering of `render_language_analysis` (dashboard.py lines
279-301): for a non-all-time selector, the current window keeps rows with
`date >= max_date - (days - 1)`, and, when comparison is enabled, the previous
window keeps rows with `start_date - days <= date <= start_date - 1`; for
all-time the table is kept whole and the previous window stays empty. -/
def filter_by_period (p : PeriodOption) (compare_previous : Bool) (rows : List LangRow) :
    List LangRow × List LangRow :=
  match p with
  | .allTime => (rows, [])
  | _ =>
    let days := period_days p
    let max_date := lang_max_date rows
    let start_date := max_date - (days - 1)
    let filtered := rows.filter (fun r => start_date ≤ r.date)
    let previous :=
      if compare_previous then
        rows.filter (fun r => start_date - days ≤ r.date ∧ r.date ≤ start_date - 1)
      else []
    (filtered, previous)

/-- A parsed JSON record as seen by `load_json_files`: the optional
`organization` key, plus an opaque stand-in for the record's other fields. -/
structure RawRecord where
  organization : Option (List Char)
  body : Nat
deriving DecidableEq, Repr

/-- `filename.split('-', 1)`: split a character list at the first occurrence
of the separator, returning the parts before and after it, or nothing when
the separator does not occur. -/
def splitFirst (sep : Char) : List Char → Option (List Char × List Char)
  | [] => none
  | c :: cs =>
    if c = sep then some ([], cs)
    else
      match splitFirst sep cs with
      | none => none
      | some (p, r) => some (c :: p, r)

/-- The organization-fallback block of `load_json_files` (main.py lines
36-42): when the record has no `organization` key and the file stem contains
a dash, set the organization to everything after the first dash; otherwise
leave the record unchanged. -/
def apply_org_fallback (stem : List Char) (data : RawRecord) : RawRecord :=
  match data.organization with
  | some _ => data
  | none =>
    match splitFirst '-' stem with
    | none => data
    | some pr => { data with organization := some pr.2 }

/-- One discovered JSON file: its stem (filename without extension) and the
outcome of `json.load` on it. -/
structure JsonFile where
  stem : List Char
  parsed : Except String RawRecord
deriving Repr

/-- The per-file body of `load_json_files` (main.py lines 32-47): a parse
failure is caught, reported and skipped; a parsed record gets the
organization fallback applied and is appended. -/
def load_one (f : JsonFile) : Option RawRecord :=
  match f.parsed with
  | .error _ => none
  | .ok data => some (apply_org_fallback f.stem data)

/-- `load_json_files` (main.py lines 19-54): a missing data directory yields
an empty table; otherwise the discovered files are processed in glob order,
skipping the ones that fail to parse. -/
def load_json_files (dir : Option (List JsonFile)) : List RawRecord :=
  match dir with
  | none => []
  | some files => files.filterMap load_one

/-- One row of the wide table as seen by `process_data`: the raw `date` and
`download_timestamp` cells (encoded as integers), the other named columns,
and an opaque stand-in for any remaining columns. -/
structure WideRecord where
  date : Int
  download_timestamp : Int
  organization : Option (List Char)
  total_active_users : Nat
  total_engaged_users : Nat
  extra : List (Nat × Int)
deriving DecidableEq, Repr

/-- The wide table with its column set: whether the `date` and
`download_timestamp` columns are present, and the rows. -/
structure WideDF where
  has_date : Bool
  has_download_timestamp : Bool
  rows : List WideRecord
deriving DecidableEq, Repr

/-- The coercion applied to one row when both columns are present:
`pd.to_datetime` on `date` and on `download_timestamp`, every other cell
untouched. `to_dt_date` and `to_dt_ts` are the (unspecified) cell-level
parsing functions of `pd.to_datetime`. -/
def coerce_row (to_dt_date to_dt_ts : Int → Int) (r : WideRecord) : WideRecord :=
  { r with date := to_dt_date r.date, download_timestamp := to_dt_ts r.download_timestamp }

/-- `process_data` (main.py lines 57-75): return an empty table unchanged;
otherwise coerce the `date` column (when present), coerce the
`download_timestamp` column (when present), then sort by `date` (when
present). `sort_by_date` is the (unspecified-tie-order) sorting routine of
`df.sort_values('date')`; the theorems assume only that it permutes its
input. -/
def process_data (to_dt_date to_dt_ts : Int → Int)
    (sort_by_date : List WideRecord → List WideRecord) (df : WideDF) : WideDF :=
  if df.rows.isEmpty then df
  else
    let r1 := if df.has_date then df.rows.map (fun r => { r with date := to_dt_date r.date })
              else df.rows
    let r2 := if df.has_download_timestamp then
                r1.map (fun r => { r with download_timestamp := to_dt_ts r.download_timestamp })
              else r1
    let r3 := if df.has_date then sort_by_date r2 else r2
    { df with rows := r3 }

/-- Concrete two-record table for the C1 witness: it exercises absent, null,
empty-falsy and populated top-level features, and absent, empty and populated
inner lists, with no present-but-null inner list key. -/
def c1_ok_df : List UsageRow :=
  [{ date := 0, organization := "acme"
     copilot_ide_code_completions := .val { editors := .val [
       { name := some "vscode", models := .val [
         { languages := .val [
           { name := some "python", total_engaged_users := some 3,
             total_code_acceptances := some 1, total_code_suggestions := some 2,
             total_code_lines_accepted := some 1, total_code_lines_suggested := some 2 }] },
         { languages := .absent },
         { languages := .val [] }] },
       { name := none, models := .absent },
       { name := some "jetbrains", models := .val [] }] }
     copilot_ide_chat := .val { editors := .val [
       { name := some "vscode", models := .val [
         { total_engaged_users := some 2, total_chats := some 4,
           total_chat_copy_events := some 1, total_chat_insertion_events := some 1 }] },
       { name := none, models := .absent }] }
     copilot_dotcom_chat := .val { total_engaged_users := some 5, models := .val [] } },
   { date := 1, organization := "acme"
     copilot_ide_code_completions := .null
     copilot_ide_chat := .emptyFalsy
     copilot_dotcom_chat := .absent }]

/-- Concrete table for the C1 counterexample: a present-but-null `editors`
key under `copilot_ide_code_completions`. -/
def c1_bad_df : List UsageRow :=
  [{ date := 0, organization := "acme"
     copilot_ide_code_completions := .val { editors := .null }
     copilot_ide_chat := .absent
     copilot_dotcom_chat := .absent }]

/-- Concrete editor for the C2 witness: its `models` key is absent. -/
def c2_witness_editor : CompEditor := { name := some "vscode", models := .absent }

def c2_witness_row : UsageRow :=
  { date := 0, organization := "acme"
    copilot_ide_code_completions := .absent
    copilot_ide_chat := .absent
    copilot_dotcom_chat := .absent }

/-- Concrete table for the C2 counterexample: a present `copilot_dotcom_chat`
structure with no `models` key. -/
def c2_dotcom_df : List UsageRow :=
  [{ date := 1, organization := "acme"
     copilot_ide_code_completions := .absent
     copilot_ide_chat := .absent
     copilot_dotcom_chat := .val { total_engaged_users := some 5, models := .absent } }]

/-- Concrete one-row language table for the C3 witness. -/
def c3_rows : List LangRow :=
  [{ date := 0, organization := "acme", editor := "vscode", language := "python",
     total_engaged_users := 3, total_code_acceptances := 1, total_code_suggestions := 2,
     total_code_lines_accepted := 1, total_code_lines_suggested := 2,
     feature_type := "code_completions" }]

/-- Concrete table for the C4 counterexample: more acceptances than
suggestions. -/
def c4_bad_table : List LangRow :=
  [{ date := 0, organization := "acme", editor := "vscode", language := "python",
     total_engaged_users := 1, total_code_acceptances := 5, total_code_suggestions := 2,
     total_code_lines_accepted := 0, total_code_lines_suggested := 0,
     feature_type := "code_completions" }]

/-- Concrete table for the C4 witness: acceptances within suggestions. -/
def c4_ok_table : List LangRow :=
  [{ date := 0, organization := "acme", editor := "vscode", language := "python",
     total_engaged_users := 1, total_code_acceptances := 1, total_code_suggestions := 2,
     total_code_lines_accepted := 1, total_code_lines_suggested := 2,
     feature_type := "code_completions" }]

/-- Concrete latest record for the C5 witness: 55 engaged of 100 active. -/
def c5_record : OverviewRecord :=
  { total_active_users := some 100, total_engaged_users := some 55 }

/-- Concrete parseable file for the C9 witness. -/
def c9_good : JsonFile :=
  { stem := ['0', '1', '-', 'a'], parsed := .ok { organization := none, body := 7 } }

/-- Concrete unparseable file for the C9 witness. -/
def c9_bad : JsonFile :=
  { stem := ['0', '2', '-', 'a'], parsed := .error "JSONDecodeError" }

/-- Concrete two-row wide table for the C10 witness. -/
def c10_df : WideDF :=
  { has_date := true
    has_download_timestamp := true
    rows :=
      [{ date := 20, download_timestamp := 200, organization := some ['a'],
         total_active_users := 100, total_engaged_users := 40, extra := [(0, 9)] },
       { date := 10, download_timestamp := 100, organization := some ['a'],
         total_active_users := 100, total_engaged_users := 55, extra := [(0, 8)] }] }

theorem splitFirst_of_not_mem (sep : Char) (l : List Char) (h : sep ∉ l) :
    splitFirst sep l = none := by
  induction l with
  | nil => rfl
  | cons c cs ih =>
    have hc : ¬ c = sep := fun hcs => h (hcs ▸ List.mem_cons_self c cs)
    have hcs : sep ∉ cs := fun hm => h (List.mem_cons_of_mem c hm)
    simp only [splitFirst, if_neg hc, ih hcs]

theorem splitFirst_append (sep : Char) (p r : List Char) (h : sep ∉ p) :
    splitFirst sep (p ++ sep :: r) = some (p, r) := by
  induction p with
  | nil => simp [splitFirst]
  | cons c cs ih =>
    have hc : ¬ c = sep := fun hcs => h (hcs ▸ List.mem_cons_self c cs)
    have hcs : sep ∉ cs := fun hm => h (List.mem_cons_of_mem c hm)
    simp only [List.cons_append, splitFirst, if_neg hc, List.append_eq, ih hcs]

/-- C6 (confirmed): a loaded record that lacks an `organization` key gets its
organization from the file stem by splitting on the first `-` and taking
everything after it; a stem with no `-` leaves the organization missing; a
record that already carries an organization is returned unchanged. -/
theorem org_inference_spec :
    (∀ (stem : List Char) (data : RawRecord) (o : List Char),
      data.organization = some o → apply_org_fallback stem data = data) ∧
    (∀ (stem : List Char) (data : RawRecord),
      data.organization = none → '-' ∉ stem →
      (apply_org_fallback stem data).organization = none) ∧
    (∀ (p r : List Char) (data : RawRecord),
      data.organization = none → '-' ∉ p →
      (apply_org_fallback (p ++ '-' :: r) data).organization = some r) := by
  refine ⟨?_, ?_, ?_⟩
  · intro stem data o ho
    unfold apply_org_fallback
    rw [ho]
  · intro stem data ho hs
    unfold apply_org_fallback
    rw [ho, splitFirst_of_not_mem '-' stem hs]
    exact ho
  · intro p r data ho hp
    unfold apply_org_fallback
    rw [ho, splitFirst_append '-' p r hp]

/-- Witness for C6: the spec's concrete example, file stem `15-acme` with no
organization in the JSON body yields organization `acme`. -/
theorem org_inference_spec_witness :
    ('-' ∉ ['1', '5']) ∧
    (apply_org_fallback (['1', '5'] ++ '-' :: "acme".toList)
      { organization := none, body := 0 }).organization = some "acme".toList := by
  refine ⟨by decide, ?_⟩
  exact org_inference_spec.2.2 ['1', '5'] "acme".toList
    { organization := none, body := 0 } rfl (by decide)

theorem load_one_eq_none (f : JsonFile) (h : f.parsed.isOk = false) :
    load_one f = none := by
  unfold load_one
  cases hf : f.parsed with
  | error e => rfl
  | ok data => rw [hf] at h; simp [Except.isOk, Except.toBool] at h

/-- C9 (confirmed): a missing data directory yields an empty table; a
directory whose files all fail to parse yields an empty table; dropping one
unparseable file from the file list does not change the loaded result (so one
bad file never removes any successfully parsed record); and every record
parsed from a discovered file appears in the result (with the organization
fallback applied). -/
theorem load_json_files_partial_failure :
    (load_json_files none = []) ∧
    (∀ files : List JsonFile, (∀ f ∈ files, f.parsed.isOk = false) →
      load_json_files (some files) = []) ∧
    (∀ (l1 l2 : List JsonFile) (bad : JsonFile), bad.parsed.isOk = false →
      load_json_files (some (l1 ++ bad :: l2)) = load_json_files (some (l1 ++ l2))) ∧
    (∀ (files : List JsonFile) (f : JsonFile) (data : RawRecord),
      f ∈ files → f.parsed = .ok data →
      apply_org_fallback f.stem data ∈ load_json_files (some files)) := by
  refine ⟨rfl, ?_, ?_, ?_⟩
  · intro files h
    show List.filterMap load_one files = []
    rw [List.filterMap_eq_nil_iff]
    intro f hf
    exact load_one_eq_none f (h f hf)
  · intro l1 l2 bad hbad
    show List.filterMap load_one (l1 ++ bad :: l2) = List.filterMap load_one (l1 ++ l2)
    simp [List.filterMap_append, List.filterMap_cons, load_one_eq_none bad hbad]
  · intro files f data hf hdata
    show apply_org_fallback f.stem data ∈ List.filterMap load_one files
    rw [List.mem_filterMap]
    refine ⟨f, hf, ?_⟩
    unfold load_one
    rw [hdata]

/-- Witness for C9: one unparseable file among two leaves the record of the
parseable one in the loaded result, and the result is as if the bad file had
not been there. -/
theorem load_json_files_partial_failure_witness :
    (c9_bad.parsed.isOk = false) ∧
    load_json_files (some [c9_good, c9_bad]) = load_json_files (some [c9_good]) ∧
    apply_org_fallback c9_good.stem { organization := none, body := 7 }
      ∈ load_json_files (some [c9_good, c9_bad]) := by
  refine ⟨rfl, ?_, ?_⟩
  · exact load_json_files_partial_failure.2.2.1 [c9_good] [] c9_bad rfl
  · exact load_json_files_partial_failure.2.2.2 [c9_good, c9_bad] c9_good
      { organization := none, body := 7 } (List.mem_cons_self c9_good [c9_bad]) rfl

theorem le_foldl_max (l : List Int) (a : Int) : a ≤ l.foldl max a := by
  induction l generalizing a with
  | nil => exact le_refl a
  | cons x xs ih => exact le_trans (le_max_left a x) (ih (max a x))

theorem mem_le_foldl_max (l : List Int) (a x : Int) (hx : x ∈ l) : x ≤ l.foldl max a := by
  induction l generalizing a with
  | nil => cases hx
  | cons y ys ih =>
    rcases List.mem_cons.mp hx with h | h
    · subst h
      exact le_trans (le_max_right a x) (le_foldl_max ys (max a x))
    · exact ih (max a y) h

theorem foldl_max_self_or_mem (l : List Int) (a : Int) :
    l.foldl max a = a ∨ l.foldl max a ∈ l := by
  induction l generalizing a with
  | nil => exact Or.inl rfl
  | cons y ys ih =>
    rcases ih (max a y) with h | h
    · rcases max_choice a y with hm | hm
      · exact Or.inl (by rw [List.foldl_cons, h, hm])
      · exact Or.inr (by rw [List.foldl_cons, h, hm]; exact List.mem_cons_self y ys)
    · exact Or.inr (List.mem_cons_of_mem y h)

theorem le_lang_max_date (rows : List LangRow) (r : LangRow) (h : r ∈ rows) :
    r.date ≤ lang_max_date rows := by
  cases rows with
  | nil => cases h
  | cons x xs =>
    rcases List.mem_cons.mp h with h | h
    · subst h
      exact le_foldl_max _ _
    · exact mem_le_foldl_max _ _ _ (List.mem_map_of_mem _ h)

theorem lang_max_date_mem (rows : List LangRow) (h : rows ≠ []) :
    ∃ r ∈ rows, r.date = lang_max_date rows := by
  cases rows with
  | nil => exact absurd rfl h
  | cons x xs =>
    rcases foldl_max_self_or_mem (xs.map (fun y => y.date)) x.date with h1 | h1
    · exact ⟨x, List.mem_cons_self x xs, h1.symm⟩
    · rcases List.mem_map.mp h1 with ⟨r, hr, hrd⟩
      exact ⟨r, List.mem_cons_of_mem x hr, hrd⟩

theorem filter_by_period_eq (p : PeriodOption) (hp : p ≠ PeriodOption.allTime)
    (c : Bool) (rows : List LangRow) :
    filter_by_period p c rows =
      (rows.filter (fun r => lang_max_date rows - (period_days p - 1) ≤ r.date),
       if c then
         rows.filter (fun r =>
           lang_max_date rows - (period_days p - 1) - period_days p ≤ r.date ∧
           r.date ≤ lang_max_date rows - (period_days p - 1) - 1)
       else []) := by
  cases p with
  | last7 => rfl
  | last14 => rfl
  | last30 => rfl
  | allTime => exact absurd rfl hp

/-- C3 (confirmed): for a non-all-time N-day selector (N one of 7, 14, 30) on
a non-empty table, the anchor is the table's own maximum date M; the current
window is exactly the rows with `M - (N-1) <= date`; with comparison enabled
the previous window is exactly the rows with `date` in `[M - (2N-1), M - N]`,
an interval spanning exactly N days, strictly earlier than and disjoint from
the current window; the all-time selector keeps the whole table and an empty
previous window. -/
theorem period_window_spec (p : PeriodOption) (rows : List LangRow)
    (hne : rows ≠ []) (hp : p ≠ PeriodOption.allTime) :
    (period_days p = 7 ∨ period_days p = 14 ∨ period_days p = 30) ∧
    (∀ r ∈ rows, r.date ≤ lang_max_date rows) ∧
    (∃ r ∈ rows, r.date = lang_max_date rows) ∧
    (∀ r : LangRow, r ∈ (filter_by_period p true rows).1 ↔
      r ∈ rows ∧ lang_max_date rows - (period_days p - 1) ≤ r.date) ∧
    (∀ r : LangRow, r ∈ (filter_by_period p true rows).2 ↔
      r ∈ rows ∧ lang_max_date rows - (2 * period_days p - 1) ≤ r.date ∧
        r.date ≤ lang_max_date rows - period_days p) ∧
    ((lang_max_date rows - period_days p) -
        (lang_max_date rows - (2 * period_days p - 1)) + 1 = period_days p) ∧
    (lang_max_date rows - period_days p < lang_max_date rows - (period_days p - 1)) ∧
    (∀ r : LangRow, r ∈ (filter_by_period p true rows).2 →
      r ∉ (filter_by_period p true rows).1) ∧
    (∀ c : Bool, filter_by_period PeriodOption.allTime c rows = (rows, [])) := by
  have heq := filter_by_period_eq p hp true rows
  refine ⟨?_, fun r hr => le_lang_max_date rows r hr, lang_max_date_mem rows hne,
    ?_, ?_, by omega, by omega, ?_, fun c => rfl⟩
  · cases p with
    | last7 => exact Or.inl rfl
    | last14 => exact Or.inr (Or.inl rfl)
    | last30 => exact Or.inr (Or.inr rfl)
    | allTime => exact absurd rfl hp
  · intro r
    rw [heq]
    simp only [List.mem_filter, decide_eq_true_eq]
  · intro r
    rw [heq]
    simp only [if_true, List.mem_filter, decide_eq_true_eq]
    constructor
    · rintro ⟨hmem, h1, h2⟩
      exact ⟨hmem, by omega, by omega⟩
    · rintro ⟨hmem, h1, h2⟩
      exact ⟨hmem, by omega, by omega⟩
  · intro r hprev hcur
    rw [heq] at hprev hcur
    simp only [if_true, List.mem_filter, decide_eq_true_eq] at hprev hcur
    obtain ⟨-, -, h2⟩ := hprev
    obtain ⟨-, h3⟩ := hcur
    omega

/-- Witness for C3: the 7-day selector on a concrete one-row table satisfies
the previous-window span equation. -/
theorem period_window_spec_witness :
    (c3_rows ≠ []) ∧ (PeriodOption.last7 ≠ PeriodOption.allTime) ∧
    (lang_max_date c3_rows - period_days PeriodOption.last7) -
        (lang_max_date c3_rows - (2 * period_days PeriodOption.last7 - 1)) + 1
      = period_days PeriodOption.last7 := by
  refine ⟨by decide, by decide, ?_⟩
  exact (period_window_spec PeriodOption.last7 c3_rows (by decide)
    (by decide)).2.2.2.2.2.1

/-- C4 (amended): `calculate_acceptance_rate` is 0 on an empty table and when
the summed suggestions are 0, equals `100 * Σacceptances / Σsuggestions` when
the summed suggestions are positive, and lies in [0, 100] whenever every row
satisfies `total_code_acceptances <= total_code_suggestions` (the expected,
but unenforced, data invariant); without that invariant the rate can exceed
100. -/
theorem acceptance_rate_spec (rows : List LangRow) :
    (rows = [] → calculate_acceptance_rate rows = 0) ∧
    (total_suggestions rows = 0 → calculate_acceptance_rate rows = 0) ∧
    (0 < total_suggestions rows →
      calculate_acceptance_rate rows =
        (total_acceptances rows : ℚ) / (total_suggestions rows : ℚ) * 100) ∧
    ((∀ r ∈ rows, r.total_code_acceptances ≤ r.total_code_suggestions) →
      0 ≤ calculate_acceptance_rate rows ∧ calculate_acceptance_rate rows ≤ 100) := by
  refine ⟨?_, ?_, ?_, ?_⟩
  · intro h
    subst h
    rfl
  · intro h
    unfold calculate_acceptance_rate
    by_cases he : rows.isEmpty
    · rw [if_pos he]
    · rw [if_neg he, if_neg (by omega)]
  · intro h
    have hne : ¬ rows.isEmpty = true := by
      cases rows with
      | nil => simp [total_suggestions] at h
      | cons x xs => simp [List.isEmpty]
    unfold calculate_acceptance_rate
    rw [if_neg hne, if_pos h]
  · intro h
    have hle : total_acceptances rows ≤ total_suggestions rows :=
      List.sum_le_sum h
    unfold calculate_acceptance_rate
    by_cases he : rows.isEmpty
    · rw [if_pos he]
      norm_num
    · rw [if_neg he]
      by_cases hs : 0 < total_suggestions rows
      · rw [if_pos hs]
        have hsq : (0 : ℚ) < (total_suggestions rows : ℚ) := Nat.cast_pos.mpr hs
        have h1 : (total_acceptances rows : ℚ) / (total_suggestions rows : ℚ) ≤ 1 :=
          (div_le_one hsq).mpr (Nat.cast_le.mpr hle)
        constructor
        · exact mul_nonneg (div_nonneg (Nat.cast_nonneg _) (Nat.cast_nonneg _))
            (by norm_num)
        · have h2 := mul_le_mul_of_nonneg_right h1 (by norm_num : (0 : ℚ) ≤ 100)
          rw [one_mul] at h2
          exact h2
      · rw [if_neg hs]
        norm_num

/-- C4 counterexample: a one-row table with 5 acceptances against 2
suggestions (positive summed suggestions) has acceptance rate 250, outside
[0, 100], so the unconditional bound of the claim is false. -/
theorem acceptance_rate_counterexample :
    0 < total_suggestions c4_bad_table ∧
    calculate_acceptance_rate c4_bad_table = 250 ∧
    ¬ calculate_acceptance_rate c4_bad_table ≤ 100 := by
  have h : calculate_acceptance_rate c4_bad_table = 250 := by
    norm_num [calculate_acceptance_rate, total_suggestions, total_acceptances, c4_bad_table]
  refine ⟨by decide, h, ?_⟩
  rw [h]
  norm_num

/-- Witness for C4: on a concrete table respecting the acceptances-at-most-
suggestions invariant, the rate is within [0, 100]. -/
theorem acceptance_rate_spec_witness :
    (∀ r ∈ c4_ok_table, r.total_code_acceptances ≤ r.total_code_suggestions) ∧
    0 ≤ calculate_acceptance_rate c4_ok_table ∧
    calculate_acceptance_rate c4_ok_table ≤ 100 := by
  refine ⟨by decide, ?_⟩
  exact (acceptance_rate_spec c4_ok_table).2.2.2 (by decide)

/-- C5 (amended): the engagement-rate computation of `render_overview`
defaults its denominator to 1 only when the `total_active_users` key is
absent; for every record whose `total_active_users` is absent or positive it
yields a finite rational equal to `engaged / active * 100`; it is not guarded
when `total_active_users` is present with value 0, in which case the division
divides by zero. -/
theorem engagement_rate_spec (r : OverviewRecord)
    (h : r.total_active_users = none ∨ ∃ n, r.total_active_users = some n ∧ 0 < n) :
    engagement_rate r =
      .ok (((r.total_engaged_users.getD 0 : Nat) : ℚ) /
        ((r.total_active_users.getD 1 : Nat) : ℚ) * 100) := by
  have hden : r.total_active_users.getD 1 ≠ 0 := by
    rcases h with h | ⟨n, hn, hpos⟩
    · rw [h]
      exact one_ne_zero
    · rw [hn]
      simpa using Nat.pos_iff_ne_zero.mp hpos
  unfold engagement_rate
  rw [if_neg hden]

/-- Witness for C5: the spec's concrete scenario, 55 engaged of 100 active
users, computes to 55%. -/
theorem engagement_rate_spec_witness :
    (c5_record.total_active_users = none ∨
      ∃ n, c5_record.total_active_users = some n ∧ 0 < n) ∧
    engagement_rate c5_record = .ok 55 := by
  refine ⟨Or.inr ⟨100, rfl, by norm_num⟩, ?_⟩
  have h := engagement_rate_spec c5_record (Or.inr ⟨100, rfl, by norm_num⟩)
  rw [h]
  norm_num [c5_record, Option.getD_some]

/-- C5 counterexample: a record whose `total_active_users` key is present
with value 0 makes the computation divide by zero instead of flooring the
denominator to 1 — the code's `.get('total_active_users', 1)` is a
default-when-absent, not a floor. -/
theorem engagement_rate_counterexample :
    engagement_rate { total_active_users := some 0, total_engaged_users := some 40 }
      = .error "ZeroDivisionError" := rfl

/-- C10 (confirmed): on a non-empty table carrying both columns,
`process_data` (for any cell-level `to_datetime` functions and any sorting
routine that permutes its input) keeps the column set, keeps exactly the
original rows up to the coercion of the `date` and `download_timestamp`
cells and up to reordering, and the coercion leaves every other column of
every row unchanged. -/
theorem process_data_frame_effect (to_dt_date to_dt_ts : Int → Int)
    (sort_by_date : List WideRecord → List WideRecord)
    (hsort : ∀ l : List WideRecord, List.Perm (sort_by_date l) l)
    (df : WideDF) (hne : df.rows ≠ []) (hd : df.has_date = true)
    (ht : df.has_download_timestamp = true) :
    (process_data to_dt_date to_dt_ts sort_by_date df).has_date = df.has_date ∧
    (process_data to_dt_date to_dt_ts sort_by_date df).has_download_timestamp
      = df.has_download_timestamp ∧
    List.Perm (process_data to_dt_date to_dt_ts sort_by_date df).rows
      (df.rows.map (coerce_row to_dt_date to_dt_ts)) ∧
    (process_data to_dt_date to_dt_ts sort_by_date df).rows.length = df.rows.length ∧
    (∀ r : WideRecord,
      (coerce_row to_dt_date to_dt_ts r).organization = r.organization ∧
      (coerce_row to_dt_date to_dt_ts r).total_active_users = r.total_active_users ∧
      (coerce_row to_dt_date to_dt_ts r).total_engaged_users = r.total_engaged_users ∧
      (coerce_row to_dt_date to_dt_ts r).extra = r.extra) := by
  have hemp : ¬ df.rows.isEmpty = true := by
    cases hr : df.rows with
    | nil => exact absurd hr hne
    | cons x xs => simp [List.isEmpty]
  have hpd : process_data to_dt_date to_dt_ts sort_by_date df
      = { df with rows := sort_by_date (df.rows.map (coerce_row to_dt_date to_dt_ts)) } := by
    unfold process_data
    rw [if_neg hemp]
    simp only [hd, ht, if_true]
    rw [List.map_map]
    rfl
  rw [hpd]
  have hperm : List.Perm (sort_by_date (df.rows.map (coerce_row to_dt_date to_dt_ts)))
      (df.rows.map (coerce_row to_dt_date to_dt_ts)) := hsort _
  refine ⟨rfl, rfl, hperm, ?_, fun r => ⟨rfl, rfl, rfl, rfl⟩⟩
  rw [hperm.length_eq, List.length_map]

/-- Witness for C10: a concrete two-row table, with identity coercions and a
merge sort on the date column, keeps its rows up to reordering and its
columns intact. -/
theorem process_data_frame_effect_witness :
    (c10_df.rows ≠ []) ∧
    List.Perm (process_data (fun x => x) (fun x => x)
        (fun l => l.mergeSort (fun a b => a.date ≤ b.date)) c10_df).rows
      (c10_df.rows.map (coerce_row (fun x => x) (fun x => x))) ∧
    (process_data (fun x => x) (fun x => x)
        (fun l => l.mergeSort (fun a b => a.date ≤ b.date)) c10_df).rows.length
      = c10_df.rows.length := by
  have h := process_data_frame_effect (fun x => x) (fun x => x)
    (fun l => l.mergeSort (fun a b => a.date ≤ b.date))
    (fun l => List.mergeSort_perm l (fun a b => a.date ≤ b.date))
    c10_df (by decide) rfl rfl
  exact ⟨by decide, h.2.2.1, h.2.2.2.1⟩

theorem exceptFlatMap_isOk (f : α → Except String (List β)) (l : List α)
    (h : ∀ a ∈ l, (f a).isOk = true) : (exceptFlatMap f l).isOk = true := by
  induction l with
  | nil => rfl
  | cons a as ih =>
    have ha := h a (List.mem_cons_self a as)
    have has := ih (fun x hx => h x (List.mem_cons_of_mem a hx))
    unfold exceptFlatMap
    cases hfa : f a with
    | error e => rw [hfa] at ha; simp [Except.isOk, Except.toBool] at ha
    | ok bs =>
      cases hrest : exceptFlatMap f as with
      | error e => rw [hrest] at has; simp [Except.isOk, Except.toBool] at has
      | ok cs => rfl

theorem langRowsOfModel_isOk (d : Int) (o en : String) (m : CompModel)
    (h : compModelWf m = true) : (langRowsOfModel d o en m).isOk = true := by
  unfold langRowsOfModel
  unfold compModelWf at h
  cases hml : m.languages with
  | absent => rfl
  | null => rw [hml] at h; simp at h
  | val ls => rfl

theorem langRowsOfEditor_isOk (d : Int) (o : String) (e : CompEditor)
    (h : compEditorWf e = true) : (langRowsOfEditor d o e).isOk = true := by
  unfold langRowsOfEditor
  unfold compEditorWf at h
  cases hm : e.models with
  | absent => rfl
  | null => rw [hm] at h; simp at h
  | val ms =>
    rw [hm] at h
    exact exceptFlatMap_isOk _ ms fun m hmm =>
      langRowsOfModel_isOk d o (e.name.getD "unknown") m (List.all_eq_true.mp h m hmm)

theorem langRowsOfRow_isOk (r : UsageRow) (h : usageRowLangWf r = true) :
    (langRowsOfRow r).isOk = true := by
  unfold langRowsOfRow
  unfold usageRowLangWf at h
  cases hc : r.copilot_ide_code_completions with
  | absent => rfl
  | null => rfl
  | emptyFalsy => rfl
  | val c =>
    rw [hc] at h
    replace h : completionsWf c = true := h
    unfold completionsWf at h
    show (match c.editors with
      | ListField.absent => (Except.ok [] : Except String (List LangRow))
      | ListField.null => Except.error "TypeError"
      | ListField.val es =>
          exceptFlatMap (langRowsOfEditor r.date r.organization) es).isOk = true
    cases he : c.editors with
    | absent => rfl
    | null => rw [he] at h; simp at h
    | val es =>
      rw [he] at h
      exact exceptFlatMap_isOk _ es fun e hee =>
        langRowsOfEditor_isOk r.date r.organization e (List.all_eq_true.mp h e hee)

theorem chatRowsOfEditor_isOk (d : Int) (o : String) (e : ChatEditor)
    (h : chatEditorWf e = true) : (chatRowsOfEditor d o e).isOk = true := by
  unfold chatRowsOfEditor
  unfold chatEditorWf at h
  cases hm : e.models with
  | absent => rfl
  | null => rw [hm] at h; simp at h
  | val ms => rfl

theorem ideChatRowsOfRow_isOk (r : UsageRow) (h : usageRowChatWf r = true) :
    (ideChatRowsOfRow r).isOk = true := by
  unfold ideChatRowsOfRow
  unfold usageRowChatWf at h
  cases hc : r.copilot_ide_chat with
  | absent => rfl
  | null => rfl
  | emptyFalsy => rfl
  | val c =>
    rw [hc] at h
    replace h : ideChatWf c = true := h
    unfold ideChatWf at h
    show (match c.editors with
      | ListField.absent => (Except.ok [] : Except String (List ChatRow))
      | ListField.null => Except.error "TypeError"
      | ListField.val es =>
          exceptFlatMap (chatRowsOfEditor r.date r.organization) es).isOk = true
    cases he : c.editors with
    | absent => rfl
    | null => rw [he] at h; simp at h
    | val es =>
      rw [he] at h
      exact exceptFlatMap_isOk _ es fun e hee =>
        chatRowsOfEditor_isOk r.date r.organization e (List.all_eq_true.mp h e hee)

theorem chatRowsOfRow_isOk (r : UsageRow) (h : usageRowChatWf r = true) :
    (chatRowsOfRow r).isOk = true := by
  unfold chatRowsOfRow
  cases hi : ideChatRowsOfRow r with
  | error e =>
    have hok := ideChatRowsOfRow_isOk r h
    rw [hi] at hok
    simp [Except.isOk, Except.toBool] at hok
  | ok l => rfl

/-- C1 (amended): `extract_language_metrics` and `extract_chat_metrics`
return a table and never raise on every table in which no
`copilot_ide_code_completions` or `copilot_ide_chat` structure carries a
present-but-null `editors`, `models` or `languages` key; the top-level
feature keys may independently be absent, null or empty, and all inner list
keys may be absent or empty lists. (A present-but-null inner list key makes
the source iterate `None`, which raises.) -/
theorem extract_metrics_never_raise (df : List UsageRow)
    (h1 : ∀ r ∈ df, usageRowLangWf r = true)
    (h2 : ∀ r ∈ df, usageRowChatWf r = true) :
    (extract_language_metrics df).isOk = true ∧ (extract_chat_metrics df).isOk = true :=
  ⟨exceptFlatMap_isOk _ df fun r hr => langRowsOfRow_isOk r (h1 r hr),
   exceptFlatMap_isOk _ df fun r hr => chatRowsOfRow_isOk r (h2 r hr)⟩

/-- Witness for C1: on a concrete two-record table exercising absent, null,
empty and populated branches (with no present-but-null inner list key), both
extraction functions succeed. -/
theorem extract_metrics_never_raise_witness :
    (∀ r ∈ c1_ok_df, usageRowLangWf r = true) ∧
    (∀ r ∈ c1_ok_df, usageRowChatWf r = true) ∧
    ((extract_language_metrics c1_ok_df).isOk = true ∧
      (extract_chat_metrics c1_ok_df).isOk = true) := by
  refine ⟨by decide, by decide, ?_⟩
  exact extract_metrics_never_raise c1_ok_df (by decide) (by decide)

/-- C1 counterexample: a record whose `copilot_ide_code_completions`
structure carries a present-but-null `editors` key makes
`extract_language_metrics` iterate `None` and raise a TypeError, so the
claim's unconditional never-raise is false. -/
theorem extract_language_metrics_counterexample :
    extract_language_metrics c1_bad_df = .error "TypeError" ∧
    (extract_language_metrics c1_bad_df).isOk = false := ⟨rfl, rfl⟩

/-- C2 (amended): a nested key that is absent or an empty list contributes
zero rows for its branch, and a top-level feature structure that is absent,
null or empty (falsy) contributes zero rows; but a present-but-null inner
`editors`/`models`/`languages` key raises instead of contributing zero rows,
and a present `copilot_dotcom_chat` structure whose `models` key is absent,
null or an empty list still contributes exactly one row, with
`total_chats = 0`. -/
theorem branch_contribution_spec (r : UsageRow) :
    ((r.copilot_ide_code_completions = .absent ∨ r.copilot_ide_code_completions = .null ∨
        r.copilot_ide_code_completions = .emptyFalsy) → langRowsOfRow r = .ok []) ∧
    ((r.copilot_ide_chat = .absent ∨ r.copilot_ide_chat = .null ∨
        r.copilot_ide_chat = .emptyFalsy) → ideChatRowsOfRow r = .ok []) ∧
    ((r.copilot_dotcom_chat = .absent ∨ r.copilot_dotcom_chat = .null ∨
        r.copilot_dotcom_chat = .emptyFalsy) → dotcomChatRowsOfRow r = []) ∧
    (∀ c : Completions, r.copilot_ide_code_completions = .val c →
      (c.editors = .absent ∨ c.editors = .val []) → langRowsOfRow r = .ok []) ∧
    (∀ c : IdeChat, r.copilot_ide_chat = .val c →
      (c.editors = .absent ∨ c.editors = .val []) → ideChatRowsOfRow r = .ok []) ∧
    (∀ e : CompEditor, (e.models = .absent ∨ e.models = .val []) →
      langRowsOfEditor r.date r.organization e = .ok []) ∧
    (∀ e : ChatEditor, (e.models = .absent ∨ e.models = .val []) →
      chatRowsOfEditor r.date r.organization e = .ok []) ∧
    (∀ (en : String) (m : CompModel), (m.languages = .absent ∨ m.languages = .val []) →
      langRowsOfModel r.date r.organization en m = .ok []) ∧
    (∀ d : DotcomChat, r.copilot_dotcom_chat = .val d →
      (d.models = .absent ∨ d.models = .null ∨ d.models = .val []) →
      dotcomChatRowsOfRow r =
        [{ date := r.date, organization := r.organization, editor := "github.com",
           feature_type := "dotcom_chat",
           total_engaged_users := d.total_engaged_users.getD 0,
           total_chats := 0, total_chat_copy_events := 0,
           total_chat_insertion_events := 0 }]) := by
  refine ⟨?_, ?_, ?_, ?_, ?_, ?_, ?_, ?_, ?_⟩
  · rintro (h | h | h) <;> simp [langRowsOfRow, h]
  · rintro (h | h | h) <;> simp [ideChatRowsOfRow, h]
  · rintro (h | h | h) <;> simp [dotcomChatRowsOfRow, h]
  · rintro c hc (he | he) <;> simp [langRowsOfRow, hc, he, exceptFlatMap]
  · rintro c hc (he | he) <;> simp [ideChatRowsOfRow, hc, he, exceptFlatMap]
  · rintro e (hm | hm) <;> simp [langRowsOfEditor, hm, exceptFlatMap]
  · rintro e (hm | hm) <;> simp [chatRowsOfEditor, hm]
  · rintro en m (hl | hl) <;> simp [langRowsOfModel, hl]
  · rintro d hd (hm | hm | hm) <;> simp [dotcomChatRowsOfRow, hd, hm]

/-- Witness for C2: an editor whose `models` key is absent contributes zero
language rows. -/
theorem branch_contribution_spec_witness :
    (c2_witness_editor.models = .absent ∨ c2_witness_editor.models = .val []) ∧
    langRowsOfEditor 0 "acme" c2_witness_editor = .ok [] := by
  refine ⟨Or.inl rfl, ?_⟩
  exact (branch_contribution_spec c2_witness_row).2.2.2.2.2.1 c2_witness_editor (Or.inl rfl)

/-- C2 counterexample: a record whose present `copilot_dotcom_chat`
structure has no `models` key (so no non-empty models list) still produces
one dotcom-chat row (with `total_chats = 0`), not zero rows, so the claim's
zero-rows statement for that branch is false. -/
theorem dotcom_branch_counterexample :
    extract_chat_metrics c2_dotcom_df =
      .ok [{ date := 1, organization := "acme", editor := "github.com",
             feature_type := "dotcom_chat", total_engaged_users := 5, total_chats := 0,
             total_chat_copy_events := 0, total_chat_insertion_events := 0 }] := rfl
